import Mathlib

/-!
Verification of the device-digihelp backend against its specification.

The development shallowly embeds the pure, decidable core of the three
source files:

- backend/api_services/gemini_core.py : the response-splitting logic of
  generate_manual (first line = device name, remainder = manual body,
  leading numbered-list marker normalization);
- backend/main.py : env-var startup validation, prompt templating,
  email construction and sending, image search, the contact-form
  endpoint and the multimodal chat endpoint;
- backend/app.py : the Flask image-processing route with its
  upload-file cleanup in the finally block.

External effects (the Gemini inference call, SMTP transport, the image
search API, TTS synthesis, image decoding) are passed in as explicit
function parameters returning Except values: an error value models a
raised Python exception, an ok value models a normal return. The
filesystem visible to app.py is modelled as a predicate from paths to
Bool. Python str values are modelled as String, or as List Char where
character-level reasoning is needed.
-/

set_option maxRecDepth 8192

-- ===========================================================================
-- Python string primitives
-- ===========================================================================

/-- Characters removed by Python str.strip() with no arguments (ASCII
whitespace; Python also strips some Unicode space characters, which is
immaterial to every claim considered here). -/
def pyIsSpace (c : Char) : Bool :=
  c == ' ' || c == '\t' || c == '\n' || c == '\r' || c == '\x0b' || c == '\x0c'

/-- Python str.strip() on a list of characters: remove the maximal run of
whitespace from the front, then from the back. -/
def pyStripL (s : List Char) : List Char :=
  List.rdropWhile pyIsSpace (List.dropWhile pyIsSpace s)

/-- Python str.strip() on String values. -/
def pyStrip (s : String) : String :=
  String.mk (pyStripL s.toList)

/-- Python truthiness of an optional string (None and the empty string are
falsy, every other string is truthy). -/
def pyTruthyOpt : Option String → Bool
  | none => false
  | some s => s != ""

/-- Python str.startswith, modelled character by character. -/
def pyStartsWith (s pre : String) : Bool :=
  pre.toList.isPrefixOf s.toList

-- ===========================================================================
-- gemini_core.py : generate_manual response processing (lines 72 to 89)
-- ===========================================================================

/-- Split a character list at its first line break, as Python
raw_text.split with separator a line break and maxsplit 1: none when no
line break occurs, otherwise the pair (before, after). -/
def splitFirstNL : List Char → Option (List Char × List Char)
  | [] => none
  | c :: cs =>
      if c == '\n' then some ([], cs)
      else
        match splitFirstNL cs with
        | none => none
        | some (a, b) => some (c :: a, b)

/-- The literal three-character list-marker the source strips and
re-prepends. -/
def oneDotSpace : List Char := ['1', '.', ' ']

/-- Lines 81 to 86 of gemini_core.py: if text_manual starts with the
numbered-list marker, drop it and strip; then prepend the marker. The
source also applies a replace of a line break by itself, a no-op omitted
here. -/
def normalizeBody (t : List Char) : List Char :=
  let t1 := if oneDotSpace.isPrefixOf t then pyStripL (t.drop 3) else t
  '1' :: '.' :: ' ' :: t1

/-- Lines 77 to 89 of gemini_core.py, starting from raw_text equal to
response.text stripped: split raw_text at the first line break; the
device name is the first part stripped again, the manual body is the
second part stripped and normalized. When no line break exists the
whole raw_text plays both roles (lines is then a one-element list, so
the branch returning the fallback name for an empty lines list is
unreachable and not modelled). -/
def split_device_and_manual (raw : List Char) : List Char × List Char :=
  match splitFirstNL (pyStripL raw) with
  | some (l0, l1) => (pyStripL l0, normalizeBody (pyStripL l1))
  | none => (pyStripL (pyStripL raw), normalizeBody (pyStripL raw))

/-- Model of gemini_core.generate_manual: clientOk models whether the
module-level Gemini client initialized (a falsy client raises
ConnectionError before the try block); api models the outcome of the
image load plus generate_content call, whose exceptions are re-raised
as RuntimeError with a fixed text. On success the raw response text is
processed by split_device_and_manual. -/
def generate_manual (clientOk : Bool) (api : Except String String) :
    Except String (List Char × List Char) :=
  if clientOk = false then
    Except.error ( "Gemini client not initialized. Check GEMINI_API_KEY." )
  else
    match api with
    | Except.error e => Except.error ( "Failed to generate manual: " ++ e)
    | Except.ok raw => Except.ok (split_device_and_manual raw.toList)

-- ===========================================================================
-- main.py : prompt templates (lines 47 to 105) and their formatting
-- ===========================================================================

/-- The replacement field named language, as it occurs inside the
triple-quoted templates of main.py. -/
def languageHole : List Char := ['\x7b', 'l', 'a', 'n', 'g', 'u', 'a', 'g', 'e', '\x7d']

/-- Python str.format restricted to the single replacement field named
language, which is the only field occurring in the templates of main.py:
each occurrence of the field is replaced by the value verbatim, and the
substituted value is not rescanned. -/
def substLanguage (v : List Char) : List Char → List Char
  | [] => []
  | c :: rest =>
      if languageHole.isPrefixOf (c :: rest) then v ++ substLanguage v (rest.drop 9)
      else c :: substLanguage v rest
termination_by l => l.length
decreasing_by
  · simp only [List.length_cons, List.length_drop]
    omega
  · simp

/-- Text of MANUAL_SYSTEM_PROMPT_TEMPLATE before the language field. -/
def manualPromptPart1 : String :=
  "You are an expert tech assistant. A user has uploaded an image of a device.\nYou MUST generate your entire response in the following language: "

/-- Text of MANUAL_SYSTEM_PROMPT_TEMPLATE after the language field. -/
def manualPromptPart2 : String :=
  ".\nYour response must be formatted in simple HTML.\n\n1.  **Device Identification:** Start with a single line identifying the device. **Only bold the device name itself**. (e.g., \"This appears to be an <b>Apple iPhone 14 Pro</b>.\").\n2.  **Quick Start Guide:**\n    * Provide a clear, step-by-step \x27Quick Start Guide\x27 with the most essential, basic functions.\n    * Focus on what a brand new user would need to know (e.g., How to turn on/off, main controls, core function).\n    * Be easily understandable and to the point.\n    * This should be a detailed list, including as many basic steps as needed.\n3.  **Further Assistance:**\n    * After the guide, add a \x27Further Assistance\x27 section.\n    * Provide a list of 2-3 common follow-up questions.\n\nRULES FOR FORMATTING:\n- Use `<h3>` for main titles (like \x27Quick Start Guide\x27 and \x27Further Assistance\x27).\n- Use `<h4>` for sub-titles (like \x27Setup\x27, \x27Core Functions\x27).\n- Use `<ul>` and `<li>` for all bullet points and steps.\n- Use `<b>` and `</b>` for all bold text.\n- Do NOT use any markdown characters like \x27##\x27, \x27###\x27, \x27*\x27, or \x27**\x27.\n"

/-- MANUAL_SYSTEM_PROMPT_TEMPLATE of main.py lines 47 to 67, with the
language replacement field written as languageHole. -/
def MANUAL_SYSTEM_PROMPT_TEMPLATE : List Char :=
  ( manualPromptPart1 ).toList ++ languageHole ++ ( manualPromptPart2 ).toList

/-- Line 197 of main.py: the dynamic system prompt for the image-manual
endpoint, built by formatting the template with the requested language. -/
def buildManualSystemPrompt (language : String) : List Char :=
  substLanguage language.toList MANUAL_SYSTEM_PROMPT_TEMPLATE

/-- Text of CHAT_SYSTEM_PROMPT_TEMPLATE before the language field. -/
def chatPromptPart1 : String :=
  "You are a helpful, expert tech assistant. You are acting as a chatbot.\nThe user has already identified a device, which will be provided as \x27Device Context\x27.\nYou MUST generate your entire response in the following language: "

/-- Text of CHAT_SYSTEM_PROMPT_TEMPLATE after the language field. -/
def chatPromptPart2 : String :=
  ".\nYour job is to answer the user\x27s follow-up questions with detailed, accurate, and step-by-step instructions.\n\n- Strict scope: only answer questions directly about the provided device context. If the user asks anything unrelated (general chit-chat, unrelated topics, other devices, or personal questions), respond with a brief refusal like: \"I can help only with questions about this device.\"\n\n- If the user provides an image with their question, use it as additional context (e.g., if they ask \x27what is this button?\x27 and provide an image, you must identify the button in the image).\n- If no image is provided, just answer the text question.\n- You must be able to answer any question, from simple to complex (e.g., \"How do I add a fingerprint?\", \"How much detergent do I put in this washing machine?\", \"How do I print multiple copies?\").\n- Provide clear, concise, and helpful answers.\n- Format your response with simple HTML (<b>, <ul>, <li>) for clarity.\n"

/-- CHAT_SYSTEM_PROMPT_TEMPLATE of main.py lines 93 to 105, with the
language replacement field written as languageHole. -/
def CHAT_SYSTEM_PROMPT_TEMPLATE : List Char :=
  ( chatPromptPart1 ).toList ++ languageHole ++ ( chatPromptPart2 ).toList

-- ===========================================================================
-- main.py : send_email (lines 142 to 161) and the contact endpoint
-- ===========================================================================

/-- Headers and content of the EmailMessage object built by send_email. -/
structure EmailMessage where
  subjectHdr : String
  fromHdr : String
  toHdr : String
  replyToHdr : Option String
  contentBody : String

/-- The fixed sender display name of main.py line 26. -/
def YOUR_NAME : String := "DeviceDigiHelp Support"

/-- Lines 144 to 150 of main.py: the message constructed by send_email.
The From header combines YOUR_NAME with SENDER_EMAIL, the To header is
SENDER_EMAIL itself, and Reply-To is set only when the reply_to argument
is truthy. -/
def buildMessage (sender subject body : String) (reply_to : Option String) : EmailMessage :=
  { subjectHdr := subject
    fromHdr := YOUR_NAME ++ " <" ++ sender ++ ">"
    toHdr := sender
    replyToHdr := if pyTruthyOpt reply_to then reply_to else none
    contentBody := body }

/-- Model of send_email: smtp models the SMTP_SSL connect, login and
send_message calls on the built message (an error value is a raised
exception). Every exception is caught and converted to the boolean
false; a completed send returns true. -/
def send_email (smtp : EmailMessage → Except String Unit) (sender subject body : String)
    (reply_to : Option String) : Bool :=
  match smtp (buildMessage sender subject body reply_to) with
  | Except.ok _ => true
  | Except.error _ => false

/-- The validated JSON body of a contact submission. -/
structure ContactForm where
  name : String
  email : String
  message : String

/-- The JSON object returned by the contact endpoint. -/
structure ContactResponse where
  status : String
  message : String

/-- Subject line built by submit_contact_form. -/
def contactSubject (f : ContactForm) : String := "New Contact Form from " ++ f.name

/-- Body built by submit_contact_form (the indented triple-quoted
f-string of main.py lines 316 to 324, byte for byte). -/
def contactBody (f : ContactForm) : String :=
  "\n        You received a new contact form submission:\n        \n        Name: " ++ f.name ++
  "\n        Email: " ++ f.email ++ "\n        \n        Message:\n        " ++ f.message ++
  "\n        "

/-- Model of the contact-submit endpoint, main.py lines 308 to 330: it
builds subject and body, calls send_email with the submitter address as
reply_to, discards the boolean result, and returns a success JSON. The
except branch of the handler is unreachable because send_email never
raises, so it is not modelled. -/
def submit_contact_form (smtp : EmailMessage → Except String Unit) (sender : String)
    (form : ContactForm) : ContactResponse :=
  let _ := send_email smtp sender (contactSubject form) (contactBody form) (some form.email)
  { status := "success", message := "Contact form received!" }

-- ===========================================================================
-- main.py : get_image_url (lines 164 to 181)
-- ===========================================================================

/-- One item of the image-search result list, keeping the only field the
code reads. -/
structure SearchItem where
  link : String

/-- Outcome of the external custom-search call: a raised exception, or a
result object whose items key is absent (none) or holds a list. -/
inductive SearchOutcome
  | raises (msg : String)
  | result (items : Option (List SearchItem))

/-- Model of get_image_url: return the link of the first item when the
items key exists and is non-empty, none when it is absent or empty, and
none when the call raises (the except branch). -/
def get_image_url (search : String → SearchOutcome) (query : String) : Option String :=
  match search query with
  | SearchOutcome.raises _ => none
  | SearchOutcome.result none => none
  | SearchOutcome.result (some []) => none
  | SearchOutcome.result (some (item :: _)) => some item.link

-- ===========================================================================
-- main.py : module-level environment validation (lines 22 to 41)
-- ===========================================================================

/-- The five environment variables read at import time; none models an
unset variable. -/
structure Env where
  gemini_api_key : Option String
  sender_email : Option String
  sender_app_password : Option String
  custom_search_api_key : Option String
  search_engine_id : Option String

/-- The application object built only after validation succeeds, holding
the configuration the handlers use. -/
structure App where
  api_key : String
  sender_email : String
  sender_app_password : String
  custom_search_api_key : String
  search_engine_id : String

/-- Message of the ValueError raised for a missing GEMINI_API_KEY. -/
def geminiKeyMsg : String :=
  "GEMINI_API_KEY environment variable not set. Please set it in your .env file or Vercel settings."

/-- Message of the ValueError raised for a missing SENDER_EMAIL. -/
def senderEmailMsg : String :=
  "SENDER_EMAIL environment variable not set (your Gmail address). Please set it in your .env file or Vercel settings."

/-- Message of the ValueError raised for a missing SENDER_APP_PASSWORD. -/
def senderPasswordMsg : String :=
  "SENDER_APP_PASSWORD environment variable not set (your 16-character App Password). Please set it in your .env file or Vercel settings."

/-- Message of the ValueError raised for a missing CUSTOM_SEARCH_API_KEY. -/
def searchKeyMsg : String :=
  "CUSTOM_SEARCH_API_KEY environment variable not set. Please set it in your .env file or Vercel settings."

/-- Message of the ValueError raised for a missing SEARCH_ENGINE_ID. -/
def searchEngineIdMsg : String :=
  "SEARCH_ENGINE_ID environment variable not set. Please set it in your .env file or Vercel settings."

/-- The five startup error messages, in source order. -/
def envErrorMessages : List String :=
  [geminiKeyMsg, senderEmailMsg, senderPasswordMsg, searchKeyMsg, searchEngineIdMsg]

/-- Module-level startup of main.py: each variable is checked for Python
truthiness in source order and the first falsy one raises a ValueError
with a descriptive message, aborting the import; the FastAPI app object
is created only below the checks, so an error value here means the
process never reaches a state where it can serve requests. -/
def startup (env : Env) : Except String App :=
  if pyTruthyOpt env.gemini_api_key = false then
    Except.error geminiKeyMsg
  else if pyTruthyOpt env.sender_email = false then
    Except.error senderEmailMsg
  else if pyTruthyOpt env.sender_app_password = false then
    Except.error senderPasswordMsg
  else if pyTruthyOpt env.custom_search_api_key = false then
    Except.error searchKeyMsg
  else if pyTruthyOpt env.search_engine_id = false then
    Except.error searchEngineIdMsg
  else
    Except.ok
      { api_key := env.gemini_api_key.getD ( "" ),
        sender_email := env.sender_email.getD ( "" ),
        sender_app_password := env.sender_app_password.getD ( "" ),
        custom_search_api_key := env.custom_search_api_key.getD ( "" ),
        search_engine_id := env.search_engine_id.getD ( "" ) }

-- ===========================================================================
-- main.py : ask_follow_up endpoint (lines 259 to 304)
-- ===========================================================================

/-- An uploaded file as the handler sees it: a declared content type and
raw bytes. -/
structure UploadFile where
  content_type : String
  content : List Nat

/-- One element of the prompt_parts list handed to generate_content:
either a text fragment or a decoded image. -/
inductive PromptPart
  | text (s : String)
  | image (img : List Nat)

/-- A raised Python exception as the blanket except clause sees it:
either an HTTPException with status and detail, or any other exception
with its message. -/
inductive PyExc
  | http (status : Nat) (detail : String)
  | other (msg : String)

/-- Python str of an exception: Starlette HTTPException renders as the
status code, a colon and a space, then the detail; other exceptions
render as their message. -/
def pyExcStr : PyExc → String
  | PyExc.http s d => toString s ++ ": " ++ d
  | PyExc.other m => m

/-- The JSON response of the chat endpoint: either the answer object or
an HTTPException with status code and detail. -/
inductive HandlerOutcome
  | ok (answer : String)
  | httpError (status : Nat) (detail : String)

/-- The generate_content call and the response.text access of the chat
endpoint: an error is a raised exception, ok none is a response without
text (which makes the handler raise a 500 inside the try block), ok with
a string is a normal answer. The Bool records that inference was
invoked. -/
def askModel (inference : String → List PromptPart → Except String (Option String))
    (sys : String) (parts : List PromptPart) : Except PyExc String × Bool :=
  match inference sys parts with
  | Except.error e => (Except.error (PyExc.other e), true)
  | Except.ok none => (Except.error (PyExc.http 500 ( "AI failed to generate a chat response." )), true)
  | Except.ok (some t) => (Except.ok t, true)

/-- Body of the try block of ask_follow_up: build the prompt parts;
when a file is present, first check its content type and raise an
HTTPException with status 400 when it is not an image type (before any
decode or inference), otherwise decode the image and include it in the
parts; finally invoke the model. The Bool of the pair records whether
the inference call was reached. -/
def ask_follow_up_try (decode : List Nat → Except String (List Nat))
    (inference : String → List PromptPart → Except String (Option String))
    (sys : String) (device question : String) (file : Option UploadFile) :
    Except PyExc String × Bool :=
  match file with
  | some f =>
      if pyStartsWith f.content_type ( "image/" ) then
        match decode f.content with
        | Except.error e => (Except.error (PyExc.other e), false)
        | Except.ok img =>
            askModel inference sys
              [ PromptPart.text ( "Device Context: " ++ device),
                PromptPart.text ( "Here is an image related to my question:" ),
                PromptPart.image img,
                PromptPart.text ( "User Question: " ++ question) ]
      else
        (Except.error (PyExc.http 400 ( "Invalid file type for chat. Please upload an image." )), false)
  | none =>
      askModel inference sys
        [ PromptPart.text ( "Device Context: " ++ device),
          PromptPart.text ( "User Question: " ++ question) ]

/-- Model of the whole ask_follow_up handler: the system prompt is the
chat template formatted with the language; every exception raised inside
the try block, including the handler-raised HTTPException with status
400, is caught by the blanket except clause and re-raised as an
HTTPException with status 500 whose detail embeds the str of the caught
exception. -/
def ask_follow_up (decode : List Nat → Except String (List Nat))
    (inference : String → List PromptPart → Except String (Option String))
    (device question language : String) (file : Option UploadFile) :
    HandlerOutcome × Bool :=
  match ask_follow_up_try decode inference
      (String.mk (substLanguage language.toList CHAT_SYSTEM_PROMPT_TEMPLATE))
      device question file with
  | (Except.ok answer, inv) => (HandlerOutcome.ok answer, inv)
  | (Except.error e, inv) =>
      (HandlerOutcome.httpError 500 ( "An error occurred: " ++ pyExcStr e), inv)

-- ===========================================================================
-- app.py : process_manual_request (lines 44 to 96)
-- ===========================================================================

/-- The JSON responses of the Flask route: an error object with an HTTP
status, or the success object. -/
inductive FlaskResponse
  | jsonError (status : Nat) (error : String)
  | success (device manual : String) (audio_file_url : Option String)

/-- Filesystem update for os.remove. -/
def fsRemove (p : String) (fs : String → Bool) : String → Bool :=
  fun q => if q = p then false else fs q

/-- Filesystem update for a completed save call. -/
def fsInsert (p : String) (fs : String → Bool) : String → Bool :=
  fun q => if q = p then true else fs q

/-- The finally block of app.py lines 88 to 92: remove the path when it
exists. -/
def cleanup (p : String) (fs : String → Bool) : String → Bool :=
  if fs p then fsRemove p fs else fs

/-- The uploads directory of app.py line 23, an abstract constant here
standing for the dirname of the module joined with uploads. -/
def uploadsDir : String := "backend/uploads"

/-- The image_path of app.py line 57: os.path.join of the uploads folder
with the uploaded filename. -/
def imagePathFor (filename : String) : String := uploadsDir ++ "/" ++ filename

/-- Body of the second try block of app.py: call generate_manual (gen
models its outcome; an error is the raised exception), then, when the
text manual is truthy and strips to a truthy string, call generate_audio
(audio, imported from the tts_core module, which is modelled as an
opaque callable returning a filename, None, or raising) and build the
download URL when the returned filename is truthy. -/
def tryGenerate (gen : Except String (String × String))
    (audio : String → Except String (Option String)) :
    Except String (String × String × Option String) :=
  match gen with
  | Except.error e => Except.error e
  | Except.ok (device_name, text_manual) =>
      if text_manual != "" && pyStrip text_manual != "" then
        match audio text_manual with
        | Except.error e => Except.error e
        | Except.ok none => Except.ok (device_name, text_manual, none)
        | Except.ok (some fn) =>
            if fn != "" then Except.ok (device_name, text_manual, some ( "/api/download/" ++ fn))
            else Except.ok (device_name, text_manual, none)
      else Except.ok (device_name, text_manual, none)

/-- Model of the Flask route process_manual_request: validate the image
field and the filename (400 on failure, filesystem untouched), save the
upload (a raising save returns 500 with the exception text and is
modelled as writing nothing), then run the generation try block; the
finally block removes the saved upload on the error path and the success
path alike. Generated audio artifacts live in a different directory and
are outside this model. -/
def process_manual_request (gen : Except String (String × String))
    (audio : String → Except String (Option String))
    (hasImageField : Bool) (filename : String) (save : Except String Unit)
    (fs : String → Bool) : FlaskResponse × (String → Bool) :=
  if hasImageField = false then
    (FlaskResponse.jsonError 400 ( "No image file provided." ), fs)
  else if filename == "" then
    (FlaskResponse.jsonError 400 ( "No selected file." ), fs)
  else
    match save with
    | Except.error e => (FlaskResponse.jsonError 500 ( "Failed to save file: " ++ e), fs)
    | Except.ok _ =>
        let fs1 := fsInsert (imagePathFor filename) fs
        match tryGenerate gen audio with
        | Except.error e =>
            (FlaskResponse.jsonError 500 ( "Processing failed due to a server error: " ++ e),
              cleanup (imagePathFor filename) fs1)
        | Except.ok (d, m, url) =>
            (FlaskResponse.success d m url, cleanup (imagePathFor filename) fs1)

-- ===========================================================================
-- Helper lemmas
-- ===========================================================================

/-- Head of a dropWhile result never satisfies the dropped predicate. -/
theorem dropWhile_head_false (p : Char → Bool) (l : List Char) (c : Char) (cs : List Char)
    (h : List.dropWhile p l = c :: cs) : p c = false := by
  induction l with
  | nil => simp at h
  | cons a l ih =>
      rw [List.dropWhile_cons] at h
      cases hp : p a with
      | true => rw [hp] at h; simp at h; exact ih h
      | false => rw [hp] at h; simp at h; rw [← h.1]; exact hp

/-- Stripping only removes characters: membership is preserved towards
the original list. -/
theorem pyStripL_sub {c : Char} {l : List Char} (h : c ∈ pyStripL l) : c ∈ l := by
  unfold pyStripL at h
  have h1 := (List.rdropWhile_prefix pyIsSpace (List.dropWhile pyIsSpace l)).sublist.mem h
  exact (List.dropWhile_suffix pyIsSpace).sublist.mem h1

/-- Python str.strip() is idempotent. -/
theorem pyStripL_idem (l : List Char) : pyStripL (pyStripL l) = pyStripL l := by
  unfold pyStripL
  have h1 : List.dropWhile pyIsSpace (List.rdropWhile pyIsSpace (List.dropWhile pyIsSpace l)) =
      List.rdropWhile pyIsSpace (List.dropWhile pyIsSpace l) := by
    rw [List.dropWhile_eq_self_iff]
    intro hl
    obtain ⟨t, ht⟩ := List.rdropWhile_prefix pyIsSpace (List.dropWhile pyIsSpace l)
    have hne : List.rdropWhile pyIsSpace (List.dropWhile pyIsSpace l) ≠ [] :=
      List.length_pos.mp hl
    obtain ⟨c, cs, e⟩ := List.exists_cons_of_ne_nil hne
    have hd : List.dropWhile pyIsSpace l = c :: (cs ++ t) := by
      rw [e] at ht
      simpa using ht.symm
    have hc : pyIsSpace c = false := dropWhile_head_false pyIsSpace l c (cs ++ t) hd
    revert hl
    rw [e]
    intro hl
    simp [hc]
  rw [h1, List.rdropWhile_idempotent]

/-- A list without a line break does not split. -/
theorem splitFirstNL_eq_none (l : List Char) (h : '\n' ∉ l) : splitFirstNL l = none := by
  induction l with
  | nil => rfl
  | cons c cs ih =>
      simp only [List.mem_cons, not_or] at h
      simp [splitFirstNL, Ne.symm h.1, ih h.2]

/-- The manual component produced by the response splitter always starts
with the numbered-list marker, whatever the raw input. -/
theorem split_body_numbered (raw : List Char) :
    oneDotSpace <+: (split_device_and_manual raw).2 := by
  unfold split_device_and_manual
  rcases h : splitFirstNL (pyStripL raw) with _ | ⟨a, b⟩ <;> simp [h, normalizeBody] <;>
    exact ⟨_, rfl⟩

/-- Substitution on the empty template is empty. -/
theorem substLanguage_nil (v : List Char) : substLanguage v [] = [] := by
  simp [substLanguage]

/-- Substitution walks over any character that does not open a
replacement field. -/
theorem substLanguage_cons_ne (v : List Char) (c : Char) (rest : List Char) (h : c ≠ '\x7b') :
    substLanguage v (c :: rest) = c :: substLanguage v rest := by
  rw [substLanguage]
  rw [if_neg]
  intro hp
  rw [List.isPrefixOf_iff_prefix] at hp
  obtain ⟨t, ht⟩ := hp
  simp [languageHole] at ht
  exact h ht.1.symm

/-- Substitution distributes over an append whose first part has no
opening brace. -/
theorem substLanguage_append (v l r : List Char) (h : ∀ c ∈ l, c ≠ '\x7b') :
    substLanguage v (l ++ r) = l ++ substLanguage v r := by
  induction l with
  | nil => simp
  | cons c l ih =>
      rw [List.cons_append, substLanguage_cons_ne v c _ (h c (by simp)),
        ih (fun x hx => h x (by simp [hx]))]
      rfl

/-- Substitution is the identity on text without an opening brace. -/
theorem substLanguage_eq_self (v l : List Char) (h : ∀ c ∈ l, c ≠ '\x7b') :
    substLanguage v l = l := by
  have h2 := substLanguage_append v l [] h
  simpa [substLanguage_nil] using h2

/-- Substitution replaces the replacement field by the value. -/
theorem substLanguage_hole (v r : List Char) :
    substLanguage v (languageHole ++ r) = v ++ substLanguage v r := by
  rw [show languageHole ++ r = '\x7b' :: (['l', 'a', 'n', 'g', 'u', 'a', 'g', 'e', '\x7d'] ++ r)
    from rfl]
  rw [substLanguage]
  rw [if_pos]
  · simp
  · rw [List.isPrefixOf_iff_prefix]
    exact ⟨r, rfl⟩

/-- After the finally block of app.py, the cleaned path is absent from
the filesystem whatever its prior state. -/
theorem cleanup_self (p : String) (fs : String → Bool) : cleanup p fs p = false := by
  unfold cleanup fsRemove
  by_cases h : fs p <;> simp [h]

-- ===========================================================================
-- Claim C1
-- ===========================================================================

/-- Claim C1, counterexample to the claim as stated: the claim reads the
device name as the first line of the raw output, trimmed. The source
strips the whole raw text before splitting, so for a raw output whose
only line break sits inside leading whitespace the returned device name
is the full stripped text, not the trimmed (empty) first line. -/
theorem C1_counterexample :
    ('\n' ∈ (' ' :: '\n' :: ( "Microwave" ).toList)) ∧
    splitFirstNL (' ' :: '\n' :: ( "Microwave" ).toList) = some ([' '], ( "Microwave" ).toList) ∧
    (split_device_and_manual (' ' :: '\n' :: ( "Microwave" ).toList)).1 ≠ pyStripL [' '] := by
  decide

/-- Claim C1 (amended): for every raw model output whose
surrounding-whitespace-stripped form still contains a line break,
generate_manual returns the first line of the stripped text, trimmed, as
the device name, and the remainder, trimmed and then passed through the
leading numbered-marker normalization, as the manual body. -/
theorem C1_amended_split_on_trimmed (raw a b : List Char)
    (h : splitFirstNL (pyStripL raw) = some (a, b)) :
    split_device_and_manual raw = (pyStripL a, normalizeBody (pyStripL b)) := by
  unfold split_device_and_manual
  rw [h]

/-- Claim C1, witness: the Microwave example of the specification, with
the returned manual body beginning with the first numbered step. -/
theorem C1_amended_split_on_trimmed_witness :
    split_device_and_manual ( "Microwave\n1. Open door\n2. Press start" ).toList =
      (( "Microwave" ).toList, ( "1. Open door\n2. Press start" ).toList) :=
  (C1_amended_split_on_trimmed (( "Microwave\n1. Open door\n2. Press start" ).toList)
    (( "Microwave" ).toList) (( "1. Open door\n2. Press start" ).toList) (by decide)).trans
    (by decide)

-- ===========================================================================
-- Claim C2
-- ===========================================================================

/-- Claim C2, counterexample to the claim as stated: for a raw output
without a line break the returned device name does equal the whole
trimmed raw text, but the returned manual body does not: the source
prepends the numbered-list marker to it. -/
theorem C2_counterexample :
    ('\n' ∉ ( "Microwave" ).toList) ∧
    (split_device_and_manual ( "Microwave" ).toList).1 = pyStripL ( "Microwave" ).toList ∧
    (split_device_and_manual ( "Microwave" ).toList).2 ≠ pyStripL ( "Microwave" ).toList := by
  decide

/-- Claim C2 (amended): for every raw model output without a line break,
generate_manual returns the whole trimmed raw text as the device name,
and the same trimmed text passed through the leading numbered-marker
normalization (which always prepends the marker) as the manual body. -/
theorem C2_amended_no_newline (raw : List Char) (h : '\n' ∉ raw) :
    (split_device_and_manual raw).1 = pyStripL raw ∧
    (split_device_and_manual raw).2 = normalizeBody (pyStripL raw) := by
  have h1 : '\n' ∉ pyStripL raw := fun hm => h (pyStripL_sub hm)
  have h2 : splitFirstNL (pyStripL raw) = none := splitFirstNL_eq_none _ h1
  unfold split_device_and_manual
  rw [h2]
  exact ⟨pyStripL_idem raw, rfl⟩

/-- Claim C2, witness at the degenerate one-line input of the
specification. -/
theorem C2_amended_no_newline_witness :
    (split_device_and_manual ( "Microwave" ).toList).1 = pyStripL ( "Microwave" ).toList ∧
    (split_device_and_manual ( "Microwave" ).toList).2 =
      normalizeBody (pyStripL ( "Microwave" ).toList) :=
  C2_amended_no_newline (( "Microwave" ).toList) (by decide)

-- ===========================================================================
-- Claim C3
-- ===========================================================================

/-- Claim C3: the contact endpoint reports success for every submission
and every behavior of the SMTP transport, because send_email converts
every raised exception into the boolean false and the endpoint discards
that boolean. -/
theorem C3_contact_always_success (smtp : EmailMessage → Except String Unit) (sender : String)
    (form : ContactForm) :
    (submit_contact_form smtp sender form).status = "success" ∧
    (∀ subject body reply_to e, smtp (buildMessage sender subject body reply_to) = Except.error e →
      send_email smtp sender subject body reply_to = false) := by
  refine ⟨rfl, ?_⟩
  intro subject body reply_to e h
  unfold send_email
  rw [h]

/-- Claim C3, witness: a transport that always raises still yields a
success response, and send_email reports false. -/
theorem C3_contact_always_success_witness :
    (submit_contact_form (fun _ => Except.error ( "SMTPAuthenticationError" )) ( "me@example.com" )
      { name := "A", email := "a@b.c", message := "hi" }).status = "success" ∧
    send_email (fun _ => Except.error ( "SMTPAuthenticationError" )) ( "me@example.com" )
      ( "s" ) ( "b" ) none = false := by
  have h := C3_contact_always_success (fun _ => Except.error ( "SMTPAuthenticationError" ))
    ( "me@example.com" ) { name := "A", email := "a@b.c", message := "hi" }
  exact ⟨h.1, h.2 ( "s" ) ( "b" ) none ( "SMTPAuthenticationError" ) rfl⟩

-- ===========================================================================
-- Claim C4
-- ===========================================================================

/-- Claim C4 is a code bug: the handler does raise an HTTPException with
status 400 for a non-image content type before any decode or inference
call, but the blanket except clause of the same handler catches that
exception and re-raises it as a 500 whose detail embeds the stringified
400. The response status is therefore 500, not the intended 400; the
inference call is indeed never invoked (the second component is false
for every inference function). The other image endpoint of main.py,
generate_manual, performs no content-type check at all. -/
theorem C4_nonimage_upload_rejected_as_500 (decode : List Nat → Except String (List Nat))
    (inference : String → List PromptPart → Except String (Option String))
    (device question language : String) (f : UploadFile)
    (h : pyStartsWith f.content_type ( "image/" ) = false) :
    ask_follow_up decode inference device question language (some f) =
      (HandlerOutcome.httpError 500
        ( "An error occurred: 400: Invalid file type for chat. Please upload an image." ), false) := by
  have hred : ask_follow_up_try decode inference
      (String.mk (substLanguage language.toList CHAT_SYSTEM_PROMPT_TEMPLATE))
      device question (some f) =
      (Except.error (PyExc.http 400 ( "Invalid file type for chat. Please upload an image." )),
        false) := by
    simp only [ask_follow_up_try]
    rw [if_neg (by simp [h])]
  unfold ask_follow_up
  rw [hred]
  rfl

/-- Claim C4, witness: a text upload to the chat endpoint, with decode
and inference that would succeed, still yields the 500 wrapping of the
handler-raised 400, and inference is not invoked. -/
theorem C4_nonimage_upload_rejected_as_500_witness :
    ask_follow_up (fun b => Except.ok b) (fun _ _ => Except.ok (some ( "hi" ))) ( "TV" )
      ( "q" ) ( "English" ) (some { content_type := "text/plain", content := [] }) =
      (HandlerOutcome.httpError 500
        ( "An error occurred: 400: Invalid file type for chat. Please upload an image." ), false) :=
  C4_nonimage_upload_rejected_as_500 (fun b => Except.ok b) (fun _ _ => Except.ok (some ( "hi" )))
    ( "TV" ) ( "q" ) ( "English" ) { content_type := "text/plain", content := [] } (by decide)

-- ===========================================================================
-- Claim C5
-- ===========================================================================

/-- Claim C5: building the system instruction is pure string formatting:
for every language value the result is exactly the fixed template text
with the language inserted verbatim in place of the replacement field,
with no escaping or validation; determinism and totality are inherent in
the equation holding for every input. -/
theorem C5_prompt_template_substitution (language : String) :
    buildManualSystemPrompt language =
      ( manualPromptPart1 ).toList ++ language.toList ++ ( manualPromptPart2 ).toList := by
  have hb1 : (( manualPromptPart1 ).toList.all (fun c => c != '\x7b')) = true := rfl
  have hb2 : (( manualPromptPart2 ).toList.all (fun c => c != '\x7b')) = true := rfl
  have h1 : ∀ c ∈ ( manualPromptPart1 ).toList, c ≠ '\x7b' := by
    intro c hc
    simpa using List.all_eq_true.mp hb1 c hc
  have h2 : ∀ c ∈ ( manualPromptPart2 ).toList, c ≠ '\x7b' := by
    intro c hc
    simpa using List.all_eq_true.mp hb2 c hc
  unfold buildManualSystemPrompt MANUAL_SYSTEM_PROMPT_TEMPLATE
  rw [List.append_assoc, substLanguage_append _ _ _ h1, substLanguage_hole,
    substLanguage_eq_self _ _ h2, List.append_assoc]

-- ===========================================================================
-- Claim C6
-- ===========================================================================

/-- Claim C6: get_image_url returns the URL of the first item when the
search yields at least one, and none when the result has no items key,
an empty item list, or when the call raises; the function is total, so
no exception ever reaches its caller and a search failure cannot become
an endpoint error. -/
theorem C6_image_search_swallows_failures (search : String → SearchOutcome) (query : String) :
    (∀ item rest, search query = SearchOutcome.result (some (item :: rest)) →
      get_image_url search query = some item.link) ∧
    (search query = SearchOutcome.result (some []) → get_image_url search query = none) ∧
    (search query = SearchOutcome.result none → get_image_url search query = none) ∧
    (∀ msg, search query = SearchOutcome.raises msg → get_image_url search query = none) := by
  refine ⟨?_, ?_, ?_, ?_⟩ <;> intros <;> simp_all [get_image_url]

/-- Claim C6, witness: a search returning one item yields its link. -/
theorem C6_image_search_swallows_failures_witness :
    get_image_url (fun _ => SearchOutcome.result (some [{ link := "u" }])) ( "q" ) =
      some ( "u" ) :=
  (C6_image_search_swallows_failures (fun _ => SearchOutcome.result (some [{ link := "u" }]))
    ( "q" )).1 { link := "u" } [] rfl

-- ===========================================================================
-- Claim C7
-- ===========================================================================

/-- Claim C7: whenever any of the five required environment variables is
unset, module import stops with a ValueError carrying one of the five
descriptive messages, so the FastAPI application object is never built
and no request can be served. -/
theorem C7_missing_env_aborts_startup (env : Env)
    (h : env.gemini_api_key = none ∨ env.sender_email = none ∨ env.sender_app_password = none ∨
      env.custom_search_api_key = none ∨ env.search_engine_id = none) :
    ∃ msg, startup env = Except.error msg ∧ msg ∈ envErrorMessages := by
  unfold startup
  by_cases h1 : pyTruthyOpt env.gemini_api_key = false
  · exact ⟨geminiKeyMsg, by simp [h1], by simp [envErrorMessages]⟩
  by_cases h2 : pyTruthyOpt env.sender_email = false
  · exact ⟨senderEmailMsg, by simp [h1, h2], by simp [envErrorMessages]⟩
  by_cases h3 : pyTruthyOpt env.sender_app_password = false
  · exact ⟨senderPasswordMsg, by simp [h1, h2, h3], by simp [envErrorMessages]⟩
  by_cases h4 : pyTruthyOpt env.custom_search_api_key = false
  · exact ⟨searchKeyMsg, by simp [h1, h2, h3, h4], by simp [envErrorMessages]⟩
  by_cases h5 : pyTruthyOpt env.search_engine_id = false
  · exact ⟨searchEngineIdMsg, by simp [h1, h2, h3, h4, h5], by simp [envErrorMessages]⟩
  rcases h with h0 | h0 | h0 | h0 | h0
  · exact absurd (by rw [h0] ; rfl) h1
  · exact absurd (by rw [h0] ; rfl) h2
  · exact absurd (by rw [h0] ; rfl) h3
  · exact absurd (by rw [h0] ; rfl) h4
  · exact absurd (by rw [h0] ; rfl) h5

/-- Claim C7, witness: an environment missing only the inference API key
aborts startup with a listed message. -/
theorem C7_missing_env_aborts_startup_witness :
    ∃ msg, startup (Env.mk none (some ( "s@e.com" )) (some ( "pw" )) (some ( "k" ))
      (some ( "id" ))) = Except.error msg ∧ msg ∈ envErrorMessages :=
  C7_missing_env_aborts_startup _ (Or.inl rfl)

-- ===========================================================================
-- Claim C8
-- ===========================================================================

/-- Claim C8: for every request to the Flask image route that passes
validation and whose upload was saved, the saved path is absent from the
filesystem when the handler returns, on the success path and on the 500
path alike, for every prior filesystem state. -/
theorem C8_upload_deleted_after_request (gen : Except String (String × String))
    (audio : String → Except String (Option String)) (filename : String)
    (fs : String → Bool) (hfn : (filename == "") = false) :
    (process_manual_request gen audio true filename (Except.ok ()) fs).2
      (imagePathFor filename) = false := by
  unfold process_manual_request
  rw [hfn]
  simp only [Bool.false_eq_true, if_false]
  rcases tryGenerate gen audio with e | ⟨d, m, url⟩ <;> simp [cleanup_self]

/-- Claim C8, witness: a successful generation run leaves no trace of the
uploaded file. -/
theorem C8_upload_deleted_after_request_witness :
    (process_manual_request (Except.ok (( "TV" ), ( "1. On" ))) (fun _ => Except.ok none) true
      ( "img.jpg" ) (Except.ok ()) (fun _ => false)).2 (imagePathFor ( "img.jpg" )) = false :=
  C8_upload_deleted_after_request (Except.ok (( "TV" ), ( "1. On" ))) (fun _ => Except.ok none)
    ( "img.jpg" ) (fun _ => false) (by decide)

-- ===========================================================================
-- Claim C9
-- ===========================================================================

/-- Claim C9: every successful return of generate_manual carries a manual
body that starts with the literal numbered-list marker, whatever the raw
model output, because the source strips an existing leading marker and
then unconditionally prepends one. -/
theorem C9_manual_body_starts_numbered (clientOk : Bool) (api : Except String String)
    (device manual : List Char)
    (h : generate_manual clientOk api = Except.ok (device, manual)) :
    oneDotSpace <+: manual := by
  unfold generate_manual at h
  by_cases hc : clientOk = false
  · rw [if_pos hc] at h
    exact absurd h (by simp)
  · rw [if_neg hc] at h
    cases api with
    | error e => exact absurd h (by simp)
    | ok raw =>
        rw [Except.ok.injEq] at h
        have hh := split_body_numbered raw.toList
        rw [h] at hh
        exact hh

/-- Claim C9, witness at a concrete successful generation. -/
theorem C9_manual_body_starts_numbered_witness :
    oneDotSpace <+: ( "1. Open door" ).toList :=
  C9_manual_body_starts_numbered true (Except.ok ( "Microwave\n1. Open door" ))
    (( "Microwave" ).toList) (( "1. Open door" ).toList) rfl

-- ===========================================================================
-- Claim C10
-- ===========================================================================

/-- Claim C10: every message built by send_email is addressed to the
configured sender address, independently of subject, body and reply_to:
two messages built from different submissions share the recipient, the
From header is the fixed display name around the sender address, and the
submitted address lands only in the Reply-To header, set exactly when a
truthy reply_to is given. -/
theorem C10_recipient_always_sender (sender s1 b1 s2 b2 : String) (r1 r2 : Option String) :
    (buildMessage sender s1 b1 r1).toHdr = sender ∧
    (buildMessage sender s1 b1 r1).toHdr = (buildMessage sender s2 b2 r2).toHdr ∧
    (buildMessage sender s1 b1 r1).fromHdr = YOUR_NAME ++ " <" ++ sender ++ ">" ∧
    (buildMessage sender s1 b1 r1).replyToHdr = (if pyTruthyOpt r1 then r1 else none) :=
  ⟨rfl, rfl, rfl, rfl⟩
